import Mathlib

/-!
Verification of the Tiles event-planning assistant against its
natural-language specification.

The embedding below follows the frontend sources
(`tiles-frontend/src/components/chat/modal.jsx`,
`tiles-frontend/src/components/chat/ChatBubble.jsx`,
`tiles-frontend/src/services/MainChatArea-api.js`, and the gallery card
component).  The Python backend behind `lambda_handler.handler` (the
Conversation Orchestrator, Field Extractor and provider adapters) is not
part of the repository snapshot, so the definitions that concern it are
modelled directly from the specification text and are marked as such in
their doc comments.
-/

namespace Tiles

/-- An opaque item carried inside a content block (image, track, venue,
dish).  Only its identity matters for the properties below. -/
structure BlockItem where
  payload : String
deriving DecidableEq, Repr

/-- The `ai_suggestions` status-flag object attached to assistant
messages, as consumed by `modal.jsx` and `ChatBubble.jsx`
(`refresh_gallery`, `ready_to_generate`, `pdf_requested`). -/
structure AISuggestions where
  refresh_gallery : Bool
  ready_to_generate : Bool
  pdf_requested : Bool
deriving DecidableEq, Repr

/-- Message role, `msg.role === 'user'` in the sources. -/
inductive Role where
  | user
  | assistant
deriving DecidableEq, Repr

/-- A chat message as held in the modal's `messages` state.  Assistant
messages coming back from `saveMessage` additionally carry
`ai_suggestions` and the four content blocks (`image_data`,
`music_data`, `venue_data`, `food_data`). -/
structure Msg where
  id : String
  role : Role
  content : String
  ai_suggestions : Option AISuggestions := none
  image_data : List BlockItem := []
  music_data : List BlockItem := []
  venue_data : List BlockItem := []
  food_data : List BlockItem := []
deriving DecidableEq, Repr

/-- `modal.jsx` line 251: `aiResponse.ai_suggestions?.refresh_gallery`
(optional chaining; a missing object reads as false). -/
def shouldRefreshOf (m : Msg) : Bool :=
  (m.ai_suggestions.map fun s => s.refresh_gallery).getD false

/-- `modal.jsx` lines 252-253: `aiResponse.image_data?.length > 0 || ...`
over the four content blocks. -/
def hasGeneratedContentOf (m : Msg) : Bool :=
  decide (0 < m.image_data.length) || decide (0 < m.music_data.length) ||
    decide (0 < m.venue_data.length) || decide (0 < m.food_data.length)

/-- Outcome of the `saveMessage` call inside `handleSendMessage`:
either the promise resolves (possibly to a null/undefined response) or
it rejects, in which case the handler distinguishes CORS-like network
errors from other errors. -/
inductive TurnResult where
  | ok (resp : Option Msg)
  | err (corsLike : Bool)
deriving DecidableEq, Repr

/-- The effect of `handleSendMessage` (`modal.jsx` lines 200-316) on the
displayed message list, together with the number of times the
`onGalleryRefresh` callback is invoked for this turn (the callback is
assumed to be provided, as it is when the modal is mounted).  The
handler first appends the user message and a loading placeholder; on a
resolved call it removes the placeholder and, when a response object is
present, appends it and — if the refresh flag or any content block is
present — schedules `onGalleryRefresh` twice (the 100ms attempt and the
2000ms safety fallback re-trigger); on a rejected call it schedules two
fallback refreshes for CORS-like errors and removes both the user
message and the placeholder. -/
def afterSend (prev : List Msg) (userMessage loadingMessage : Msg)
    (r : TurnResult) : List Msg × Nat :=
  let withUser := prev ++ [userMessage]
  let withLoading := withUser ++ [loadingMessage]
  match r with
  | .ok resp =>
    let noLoading := withLoading.filter fun m => m.id != loadingMessage.id
    match resp with
    | some ai =>
      let updated := noLoading ++ [ai]
      if shouldRefreshOf ai || hasGeneratedContentOf ai then (updated, 2)
      else (updated, 0)
    | none => (noLoading, 0)
  | .err corsLike =>
    let cleaned := withLoading.filter fun m =>
      m.id != userMessage.id && m.id != loadingMessage.id
    (cleaned, if corsLike then 2 else 0)

/-- The AI memory snapshot displayed in the modal's memory view
(`summary`, `active_monitoring`). -/
structure MemoryRecord where
  summary : String
  active_monitoring : List String
deriving DecidableEq, Repr

/-- The slice of the modal's component state touched by message display
and memory loading: `messages`, `aiMemory` and the three `loading`
indicators. -/
structure PlannerState where
  messages : List Msg
  aiMemory : Option MemoryRecord
  loadingChats : Bool
  loadingMessages : Bool
  loadingMemory : Bool
deriving DecidableEq, Repr

/-- Result of the `getAIMemory` fetch: the parsed record (possibly a
null body) or a rejection (non-ok status or network failure). -/
inductive MemLoadResult where
  | ok (record : Option MemoryRecord)
  | err
deriving DecidableEq, Repr

/-- `loadAIMemory` (`modal.jsx` lines 103-113): sets the memory loading
indicator, awaits `getAIMemory`, stores the record on success, merely
logs on error, and clears the indicator in the `finally` block.  It is
a total function of the outcome: a failed load is swallowed. -/
def loadAIMemory (s : PlannerState) (r : MemLoadResult) : PlannerState :=
  let busy := { s with loadingMemory := true }
  match r with
  | .ok record => { busy with aiMemory := record, loadingMemory := false }
  | .err => { busy with loadingMemory := false }

/-- `ChatBubble.jsx` line 214 (and the gallery variant at the same
place), wired from `modal.jsx` with `isUser = (msg.role === 'user')`:
the PDF download section renders exactly when
`!isUser && aiSuggestions?.pdf_requested`. -/
def pdfSectionShown (m : Msg) : Bool :=
  !(m.role == Role.user) &&
    ((m.ai_suggestions.map fun s => s.pdf_requested).getD false)

/-- The alphabet string used by `generateChatId`
(`MainChatArea-api.js` line 6). -/
def chatIdChars : List Char :=
  "abcdefghijklmnopqrstuvwxyzABCDEFGHIJKLMNOPQRSTUVWXYZ0123456789".toList

/-- `generateChatId` (`MainChatArea-api.js` lines 5-12): nine iterations
of `chars.charAt(Math.floor(Math.random() * chars.length))`.  The nine
random draws `Math.floor(Math.random() * 62)` are abstracted as a
function into `Fin 62`; the index is always within the 62-character
alphabet, so `charAt` is total here (the `getD` default is never
reached). -/
def generateChatId (rand : Fin 9 → Fin 62) : String :=
  String.mk (List.ofFn fun i => chatIdChars.getD (rand i).val 'a')

/-- A gallery image as returned by the backend; only identity matters. -/
structure GalleryImage where
  url : String
deriving DecidableEq, Repr

/-- Parsed JSON body of the gallery response: the `images` field may be
absent. -/
structure GalleryBody where
  images : Option (List GalleryImage)
deriving DecidableEq, Repr

/-- An HTTP response as observed by the fetch wrapper: the `ok` status
and the parsed body. -/
structure HttpResponse where
  ok : Bool
  body : GalleryBody
deriving DecidableEq, Repr

/-- `fetchGalleryImages` (`MainChatArea-api.js` lines 94-103): throws
when `!response.ok`, otherwise returns `data.images || []`. -/
def fetchGalleryImages (response : HttpResponse) :
    Except String (List GalleryImage) :=
  if !response.ok then Except.error "Failed to fetch gallery images"
  else Except.ok (response.body.images.getD [])

/-- A provider-attributed item as the spec describes it: a payload plus
the provider-declared ranking score (confidence / context-match),
carried as a rational. -/
structure RankedItem where
  score : ℚ
  name : String
deriving DecidableEq

/-- The food card's feature truncation (gallery card component, food
branch): `data.good_for.slice(0, 2)`. -/
def displayedGoodFor (good_for : List RankedItem) : List RankedItem :=
  good_for.take 2

/-- The venue card's tag truncation (gallery card component, venue
branch): `data.tags.slice(0, 3)`. -/
def displayedVenueTags (tags : List RankedItem) : List RankedItem :=
  tags.take 3

/-- The truncation rule the specification prescribes, for comparison
with the implementation: order by provider-declared score descending,
ties broken by provider-return order (insertion sort is stable), then
keep the first `k`. -/
def specRankedTruncate (k : Nat) (items : List RankedItem) : List RankedItem :=
  (items.insertionSort fun a b => b.score ≤ a.score).take k

/-- The gallery card's percentage rendering (card component lines
148-162): `Math.round(score * 100)`, with `Math.round x = ⌊x + 1/2⌋`
matching Mathlib's `round` on rationals. -/
def cardPercent (score : ℚ) : ℤ :=
  round (score * 100)

/-- Modelled from the spec: the provider adapter boundary is absent from
the sources (it lives in the Python backend behind
`lambda_handler.handler`).  Per §4.3, "confidence/match scores are
normalized to [0,1] at the adapter boundary regardless of the
provider's native scale": the native score is rescaled by the
provider's native maximum and clamped into the unit interval. -/
def normalizeScore (nativeScale rawScore : ℚ) : ℚ :=
  max 0 (min 1 (rawScore / nativeScale))

/-- The per-turn output bundle of §3: assistant reply text, the four
typed content blocks, and the status flags. -/
structure GenerationEnvelope where
  reply : String
  image_data : List BlockItem
  music_data : List BlockItem
  venue_data : List BlockItem
  food_data : List BlockItem
  refresh_gallery : Bool
  ready_to_generate : Bool
  pdf_requested : Bool
deriving DecidableEq, Repr

/-- Modelled from the spec: the Conversation Orchestrator's envelope
composition is absent from the sources (Python backend).  Per §3 and
§7, the orchestrator sets `refresh_gallery` exactly when some content
block of the envelope it assembles is non-empty. -/
def composeEnvelope (reply : String)
    (imgs mus ven food : List BlockItem)
    (ready pdf : Bool) : GenerationEnvelope where
  reply := reply
  image_data := imgs
  music_data := mus
  venue_data := ven
  food_data := food
  refresh_gallery :=
    !(imgs.isEmpty && mus.isEmpty && ven.isEmpty && food.isEmpty)
  ready_to_generate := ready
  pdf_requested := pdf

/-- One field's part of a `ProfileDelta`: leave the field alone, set a
confirmed value, or explicitly retract it on the user's request. -/
inductive FieldAction (α : Type) where
  | keep
  | put (v : α)
  | retract
deriving DecidableEq

/-- Modelled from the spec: the `EventProfile` container (§3) is absent
from the sources (Python backend).  Fields: event type, location,
guest count, date/time window, budget tier, style/mood tags, explicit
user constraints. -/
structure EventProfile where
  eventType : Option String
  location : Option String
  guestCount : Option Nat
  dateWindow : Option String
  budgetTier : Option String
  styleTags : List String
  constraints : List String
deriving DecidableEq

/-- Modelled from the spec: the Field Extractor's `ProfileDelta` (§4.1)
is absent from the sources.  A partial update: one action per scalar
field, plus added and explicitly retracted tags/constraints. -/
structure ProfileDelta where
  eventType : FieldAction String
  location : FieldAction String
  guestCount : FieldAction Nat
  dateWindow : FieldAction String
  budgetTier : FieldAction String
  addStyleTags : List String
  retractStyleTags : List String
  addConstraints : List String
  retractConstraints : List String
deriving DecidableEq

/-- Apply one field action to the stored value of that field. -/
def applyField {α : Type} (old : Option α) : FieldAction α → Option α
  | .keep => old
  | .put v => some v
  | .retract => none

/-- Modelled from the spec: applying one turn's extraction delta to the
profile (§3, §4.1) — scalar fields are kept, refined, or explicitly
retracted; tag sets drop exactly the explicitly retracted tags and
gain the added ones. -/
def applyDelta (p : EventProfile) (d : ProfileDelta) : EventProfile where
  eventType := applyField p.eventType d.eventType
  location := applyField p.location d.location
  guestCount := applyField p.guestCount d.guestCount
  dateWindow := applyField p.dateWindow d.dateWindow
  budgetTier := applyField p.budgetTier d.budgetTier
  styleTags :=
    (p.styleTags.filter fun t => decide (t ∉ d.retractStyleTags))
      ++ d.addStyleTags
  constraints :=
    (p.constraints.filter fun c => decide (c ∉ d.retractConstraints))
      ++ d.addConstraints

/-- A sequence of turns applied to a profile, oldest delta first. -/
def applyDeltas (p : EventProfile) (ds : List ProfileDelta) : EventProfile :=
  ds.foldl applyDelta p

/-- A concrete user message used in the closed instances below. -/
def exUser : Msg :=
  { id := "1723", role := Role.user, content := "Plan a birthday party" }

/-- A concrete loading placeholder used in the closed instances below. -/
def exLoading : Msg :=
  { id := "loading-1723", role := Role.assistant, content := "" }

/-- A concrete assistant response whose envelope requests a gallery
refresh and carries one image block item. -/
def exAi : Msg :=
  { id := "1724", role := Role.assistant,
    content := "Here are some ideas",
    ai_suggestions := some
      { refresh_gallery := true, ready_to_generate := false,
        pdf_requested := false },
    image_data := [{ payload := "img-1" }] }

/-- A concrete tag list longer than the three tags the venue card
displays, whose provider order disagrees with its score order. -/
def exTags : List RankedItem :=
  [{ score := 0, name := "casual" }, { score := 0, name := "bar" },
   { score := 0, name := "patio" }, { score := 1, name := "rooftop" }]

/-- A concrete profile with a confirmed event type and one style tag. -/
def exProfile : EventProfile :=
  { eventType := some "birthday", location := none, guestCount := none,
    dateWindow := none, budgetTier := none, styleTags := ["boho"],
    constraints := [] }

/-- A concrete later turn that only adds a location. -/
def exDelta : ProfileDelta :=
  { eventType := FieldAction.keep, location := FieldAction.put "Brooklyn",
    guestCount := FieldAction.keep, dateWindow := FieldAction.keep,
    budgetTier := FieldAction.keep, addStyleTags := [],
    retractStyleTags := [], addConstraints := [], retractConstraints := [] }

/-- C1: for every envelope the orchestrator composes, `refresh_gallery`
is true if and only if at least one of the four content blocks is
non-empty; no envelope carries a non-empty block with the flag unset,
and none sets the flag while every block is empty. -/
theorem refresh_gallery_iff_nonempty_block (reply : String)
    (imgs mus ven food : List BlockItem) (ready pdf : Bool) :
    (composeEnvelope reply imgs mus ven food ready pdf).refresh_gallery = true ↔
      ((composeEnvelope reply imgs mus ven food ready pdf).image_data ≠ [] ∨
       (composeEnvelope reply imgs mus ven food ready pdf).music_data ≠ [] ∨
       (composeEnvelope reply imgs mus ven food ready pdf).venue_data ≠ [] ∨
       (composeEnvelope reply imgs mus ven food ready pdf).food_data ≠ []) := by
  simp only [composeEnvelope, Bool.not_eq_true', Bool.and_eq_false_iff,
    Bool.eq_false_iff, ne_eq, Bool.and_eq_true, List.isEmpty_iff]
  tauto

/-- C7: a memory load — whether it succeeds, returns nothing, or fails —
changes only the memory snapshot and its loading indicator; the
displayed message list and the other loading indicators are untouched,
and a failed load never fails the turn (the function is total). -/
theorem memory_load_frame (s : PlannerState) (r : MemLoadResult) :
    (loadAIMemory s r).messages = s.messages ∧
    (loadAIMemory s r).loadingChats = s.loadingChats ∧
    (loadAIMemory s r).loadingMessages = s.loadingMessages := by
  cases r <;> simp [loadAIMemory]

/-- C8: the PDF download section is rendered for a message exactly when
it is an assistant message whose envelope flags are present and have
`pdf_requested` set. -/
theorem pdf_section_shown_iff (m : Msg) :
    pdfSectionShown m = true ↔
      (m.role = Role.assistant ∧
        ∃ s, m.ai_suggestions = some s ∧ s.pdf_requested = true) := by
  cases hr : m.role <;> cases hs : m.ai_suggestions <;>
    simp [pdfSectionShown, hr, hs]

/-- C9: every generated chat id has exactly nine characters, each drawn
from the 62-character alphabet of lowercase letters, uppercase letters
and digits. -/
theorem chat_id_nine_chars_of_alphabet (rand : Fin 9 → Fin 62) :
    (generateChatId rand).length = 9 ∧ chatIdChars.length = 62 ∧
      ∀ c ∈ (generateChatId rand).toList, c ∈ chatIdChars := by
  refine ⟨?_, by decide, ?_⟩
  · show (List.ofFn _).length = 9
    exact List.length_ofFn _
  · intro c hc
    have hc' : c ∈ List.ofFn fun i =>
        chatIdChars.getD (rand i).val 'a' := hc
    rw [List.mem_ofFn] at hc'
    obtain ⟨i, hi⟩ := hc'
    have hlt : (rand i).val < chatIdChars.length := by
      have h62 : chatIdChars.length = 62 := by decide
      rw [h62]
      exact (rand i).isLt
    have hi' : chatIdChars.getD (rand i).val 'a' = c := hi
    rw [List.getD_eq_getElem _ _ hlt] at hi'
    rw [← hi']
    exact List.getElem_mem hlt

/-- C10: `fetchGalleryImages` raises exactly on a non-ok response, and
on every ok response returns the `images` field of the parsed body
when present and the empty array otherwise — never null or undefined. -/
theorem fetch_gallery_images_contract (r : HttpResponse) :
    ((∃ e, fetchGalleryImages r = Except.error e) ↔ r.ok = false) ∧
      (r.ok = true →
        fetchGalleryImages r = Except.ok (r.body.images.getD [])) := by
  cases h : r.ok <;> simp [fetchGalleryImages, h]

/-- C10 witness: an ok response with no `images` field yields the empty
array, per `fetch_gallery_images_contract`. -/
theorem fetch_gallery_images_contract_witness :
    fetchGalleryImages { ok := true, body := { images := none } } =
      Except.ok [] :=
  (fetch_gallery_images_contract { ok := true, body := { images := none } }).2
    rfl

theorem applyField_isSome {α : Type} (old : Option α) (a : FieldAction α)
    (hset : old.isSome = true) (hna : a ≠ FieldAction.retract) :
    (applyField old a).isSome = true := by
  cases a with
  | keep => exact hset
  | put v => rfl
  | retract => exact absurd rfl hna

theorem applyDeltas_field_isSome {α : Type}
    (proj : EventProfile → Option α) (dproj : ProfileDelta → FieldAction α)
    (hcomm : ∀ p d, proj (applyDelta p d) = applyField (proj p) (dproj d)) :
    ∀ (ds : List ProfileDelta) (p : EventProfile),
      (proj p).isSome = true →
      (∀ d ∈ ds, dproj d ≠ FieldAction.retract) →
      (proj (applyDeltas p ds)).isSome = true := by
  intro ds
  induction ds with
  | nil => intro p h _; exact h
  | cons d ds ih =>
    intro p h hds
    have h1 : (proj (applyDelta p d)).isSome = true := by
      rw [hcomm]
      exact applyField_isSome _ _ h (hds d (List.mem_cons_self d ds))
    exact ih (applyDelta p d) h1 fun d2 hd2 =>
      hds d2 (List.mem_cons_of_mem d hd2)

theorem applyDeltas_styleTag_mem :
    ∀ (ds : List ProfileDelta) (p : EventProfile) (t : String),
      t ∈ p.styleTags → (∀ d ∈ ds, t ∉ d.retractStyleTags) →
      t ∈ (applyDeltas p ds).styleTags := by
  intro ds
  induction ds with
  | nil => intro p t h _; exact h
  | cons d ds ih =>
    intro p t h hds
    refine ih (applyDelta p d) t ?_ fun d2 hd2 =>
      hds d2 (List.mem_cons_of_mem d hd2)
    have hkeep : t ∉ d.retractStyleTags := hds d (List.mem_cons_self d ds)
    show t ∈ (p.styleTags.filter fun x =>
      decide (x ∉ d.retractStyleTags)) ++ d.addStyleTags
    exact List.mem_append_left _
      (List.mem_filter.mpr ⟨h, by simpa using hkeep⟩)

theorem applyDeltas_constraint_mem :
    ∀ (ds : List ProfileDelta) (p : EventProfile) (c : String),
      c ∈ p.constraints → (∀ d ∈ ds, c ∉ d.retractConstraints) →
      c ∈ (applyDeltas p ds).constraints := by
  intro ds
  induction ds with
  | nil => intro p c h _; exact h
  | cons d ds ih =>
    intro p c h hds
    refine ih (applyDelta p d) c ?_ fun d2 hd2 =>
      hds d2 (List.mem_cons_of_mem d hd2)
    have hkeep : c ∉ d.retractConstraints := hds d (List.mem_cons_self d ds)
    show c ∈ (p.constraints.filter fun x =>
      decide (x ∉ d.retractConstraints)) ++ d.addConstraints
    exact List.mem_append_left _
      (List.mem_filter.mpr ⟨h, by simpa using hkeep⟩)

/-- C2: over any sequence of turns, a profile field confirmed at some
turn is never unset by later turns unless some later delta explicitly
retracts it, and a style tag or constraint present in the profile
survives every later turn that does not explicitly retract it —
monotonic enrichment. -/
theorem profile_monotonic_enrichment (p : EventProfile)
    (ds : List ProfileDelta) :
    (p.eventType.isSome = true →
      (∀ d ∈ ds, d.eventType ≠ FieldAction.retract) →
      (applyDeltas p ds).eventType.isSome = true) ∧
    (p.location.isSome = true →
      (∀ d ∈ ds, d.location ≠ FieldAction.retract) →
      (applyDeltas p ds).location.isSome = true) ∧
    (p.guestCount.isSome = true →
      (∀ d ∈ ds, d.guestCount ≠ FieldAction.retract) →
      (applyDeltas p ds).guestCount.isSome = true) ∧
    (p.dateWindow.isSome = true →
      (∀ d ∈ ds, d.dateWindow ≠ FieldAction.retract) →
      (applyDeltas p ds).dateWindow.isSome = true) ∧
    (p.budgetTier.isSome = true →
      (∀ d ∈ ds, d.budgetTier ≠ FieldAction.retract) →
      (applyDeltas p ds).budgetTier.isSome = true) ∧
    (∀ t ∈ p.styleTags, (∀ d ∈ ds, t ∉ d.retractStyleTags) →
      t ∈ (applyDeltas p ds).styleTags) ∧
    (∀ c ∈ p.constraints, (∀ d ∈ ds, c ∉ d.retractConstraints) →
      c ∈ (applyDeltas p ds).constraints) :=
  ⟨fun h hds => applyDeltas_field_isSome (fun q => q.eventType)
      (fun d => d.eventType) (fun _ _ => rfl) ds p h hds,
   fun h hds => applyDeltas_field_isSome (fun q => q.location)
      (fun d => d.location) (fun _ _ => rfl) ds p h hds,
   fun h hds => applyDeltas_field_isSome (fun q => q.guestCount)
      (fun d => d.guestCount) (fun _ _ => rfl) ds p h hds,
   fun h hds => applyDeltas_field_isSome (fun q => q.dateWindow)
      (fun d => d.dateWindow) (fun _ _ => rfl) ds p h hds,
   fun h hds => applyDeltas_field_isSome (fun q => q.budgetTier)
      (fun d => d.budgetTier) (fun _ _ => rfl) ds p h hds,
   fun t ht hds => applyDeltas_styleTag_mem ds p t ht hds,
   fun c hc hds => applyDeltas_constraint_mem ds p c hc hds⟩

/-- C2 witness: a profile with a confirmed event type and one style tag
keeps both across a later turn that only adds a location. -/
theorem profile_monotonic_enrichment_witness :
    (applyDeltas exProfile [exDelta]).eventType.isSome = true ∧
      "boho" ∈ (applyDeltas exProfile [exDelta]).styleTags := by
  have h := profile_monotonic_enrichment exProfile [exDelta]
  exact ⟨h.1 (by decide) (by decide),
    h.2.2.2.2.2.1 "boho" (by decide) (by decide)⟩

/-- C3 counterexample: with no prior messages, a user message whose
turn request fails is removed from the conversation and no assistant
reply of any kind is displayed — the message is silently dropped,
contradicting the claim that the submitted user message stays visible
and a degraded assistant response is still shown. -/
theorem dropped_user_message_on_error :
    (afterSend [] exUser exLoading (TurnResult.err false)).1 = [] ∧
      exUser ∉ (afterSend [] exUser exLoading (TurnResult.err false)).1 := by
  decide

/-- C3 amended: on a resolved turn the user message stays and the
assistant response is appended; but on a failed turn the handler
removes both the loading placeholder and the submitted user message
and adds no reply, reverting the conversation to its pre-turn state. -/
theorem turn_reply_visibility (prev : List Msg) (u l ai : Msg) (c : Bool)
    (hfresh : ∀ m ∈ prev, m.id ≠ u.id ∧ m.id ≠ l.id)
    (hul : u.id ≠ l.id) :
    (afterSend prev u l (TurnResult.ok (some ai))).1 = prev ++ [u, ai] ∧
      (afterSend prev u l (TurnResult.err c)).1 = prev := by
  have hprevL : prev.filter (fun m => m.id != l.id) = prev :=
    List.filter_eq_self.mpr fun m hm => bne_iff_ne.mpr (hfresh m hm).2
  have hprevUL : prev.filter (fun m => m.id != u.id && m.id != l.id) = prev :=
    List.filter_eq_self.mpr fun m hm => by
      have h := hfresh m hm
      simp [bne_iff_ne.mpr h.1, bne_iff_ne.mpr h.2]
  constructor
  · have hub : (u.id != l.id) = true := bne_iff_ne.mpr hul
    cases h : shouldRefreshOf ai || hasGeneratedContentOf ai <;>
      simp [afterSend, h, hprevL, hub]
  · show (((prev ++ [u]) ++ [l]).filter
      (fun m => m.id != u.id && m.id != l.id)) = prev
    rw [List.filter_append, List.filter_append]
    simp [hprevUL]

/-- C3 amended witness: a fresh conversation shows the user message and
the assistant reply on success, and reverts to empty on failure. -/
theorem turn_reply_visibility_witness :
    (afterSend [] exUser exLoading (TurnResult.ok (some exAi))).1 =
        [exUser, exAi] ∧
      (afterSend [] exUser exLoading (TurnResult.err true)).1 = [] := by
  have h := turn_reply_visibility [] exUser exLoading exAi true
    (fun m hm => absurd hm (List.not_mem_nil m)) (by decide)
  simpa using h

/-- C4 counterexample: for a successful turn whose envelope requests a
gallery refresh, the handler invokes the gallery-refresh callback
twice (a 100ms attempt plus a 2000ms safety fallback re-trigger), not
exactly once as claimed. -/
theorem gallery_refresh_not_invoked_once :
    (afterSend [] exUser exLoading (TurnResult.ok (some exAi))).2 = 2 ∧
      (afterSend [] exUser exLoading (TurnResult.ok (some exAi))).2 ≠ 1 := by
  decide

/-- C4 amended: the returned envelope is the sole completion signal the
handler reacts to, but the refresh reaction is timer-scheduled and
speculatively re-triggered: it runs exactly twice when the envelope
requests a refresh or carries content, zero times otherwise, and twice
more as a blind fallback on CORS-like failures. -/
theorem gallery_refresh_trigger_count (prev : List Msg) (u l ai : Msg)
    (c : Bool) :
    (afterSend prev u l (TurnResult.ok (some ai))).2 =
        (if shouldRefreshOf ai || hasGeneratedContentOf ai then 2 else 0) ∧
      (afterSend prev u l (TurnResult.ok none)).2 = 0 ∧
      (afterSend prev u l (TurnResult.err c)).2 = (if c then 2 else 0) := by
  refine ⟨?_, rfl, ?_⟩
  · cases h : shouldRefreshOf ai || hasGeneratedContentOf ai <;>
      simp [afterSend, h]
  · cases c <;> rfl

/-- C5 counterexample: a venue tag list of four items in provider order
whose last item has the highest score: the card keeps the first three
as given, which differs from the top-3 under score-descending,
stable-tie ordering. -/
theorem truncation_not_score_ranked :
    displayedVenueTags exTags ≠ specRankedTruncate 3 exTags := by
  decide

/-- C5 amended: when a provider list is longer than the display count,
the retained items are exactly the first k items of the list in
provider-given order — a plain prefix slice — with no re-ranking by
the provider-declared score. -/
theorem truncation_is_plain_prefix (l : List RankedItem) :
    (displayedVenueTags l <+: l ∧
      (displayedVenueTags l).length = min 3 l.length) ∧
    (displayedGoodFor l <+: l ∧
      (displayedGoodFor l).length = min 2 l.length) :=
  ⟨⟨⟨l.drop 3, List.take_append_drop 3 l⟩, List.length_take 3 l⟩,
   ⟨⟨l.drop 2, List.take_append_drop 2 l⟩, List.length_take 2 l⟩⟩

/-- C6: for any provider-native scale and raw score, the
adapter-normalized score is a rational in the closed interval [0,1],
and the percentage the card derives from it, round(score * 100), lies
in [0,100] — uniformly, with no provider-specific rescaling. -/
theorem normalized_score_and_percent_bounds (nativeScale raw : ℚ) :
    (0 ≤ normalizeScore nativeScale raw ∧
      normalizeScore nativeScale raw ≤ 1) ∧
    (0 ≤ cardPercent (normalizeScore nativeScale raw) ∧
      cardPercent (normalizeScore nativeScale raw) ≤ 100) := by
  set s := normalizeScore nativeScale raw with hs
  have h0 : 0 ≤ s := le_max_left _ _
  have h1 : s ≤ 1 := max_le (by norm_num) (min_le_left _ _)
  refine ⟨⟨h0, h1⟩, ?_, ?_⟩
  · rw [cardPercent, round_eq]
    exact Int.floor_nonneg.mpr (by nlinarith)
  · rw [cardPercent, round_eq]
    have hlt : (s * 100 + 1 / 2 : ℚ) < ((101 : ℤ) : ℚ) := by
      push_cast
      nlinarith
    have hfl := Int.floor_lt.mpr hlt
    omega

end Tiles
